import Mathlib

set_option maxRecDepth 8000

/-!
Verification of the YouTube content-analyzer backend (src/main.py).

The generation pipeline of `src/main.py` is translated function by function
into executable Lean definitions.  Strings are Lean `String`s (lists of
unicode code points, matching Python's code-point semantics for `len`,
slicing and iteration); Python's whitespace-based `str.split()`, `str.strip()`,
`str.lower()`, `str.capitalize()` and truthiness of optional strings are
modelled explicitly below.
-/

namespace ContentAnalyzer

/-- The characters Python's `str.split()` / `str.strip()` treat as whitespace
(the ASCII fragment: space, tab, newline, carriage return, vertical tab,
form feed). -/
def isPySpace (c : Char) : Bool :=
  c == ' ' || c == '\t' || c == '\n' || c == '\r' || c == '\x0b' || c == '\x0c'

/-- Python `str.lower()` (ASCII letters, as produced by this code base). -/
def pyLower (s : String) : String := ⟨s.data.map Char.toLower⟩

/-- Python `str.capitalize()`: first character uppercased, the rest
lowercased. -/
def pyCapitalize (s : String) : String :=
  match s.data with
  | [] => ⟨[]⟩
  | c :: cs => ⟨Char.toUpper c :: cs.map Char.toLower⟩

/-- Drop leading whitespace of a character list. -/
def dropSpacesL : List Char → List Char
  | [] => []
  | c :: cs => if isPySpace c then dropSpacesL cs else c :: cs

/-- Python `str.strip()`: remove leading and trailing whitespace. -/
def pyStrip (s : String) : String :=
  ⟨(dropSpacesL (dropSpacesL s.data).reverse).reverse⟩

/-- Python `s.replace(" ", "")`: remove every space character (U+0020). -/
def removeSpaces (s : String) : String :=
  ⟨s.data.filter (fun c => !(c == ' '))⟩

/-- `leadsWith needle hay`: `needle` is an initial run of `hay`. -/
def leadsWith : List Char → List Char → Bool
  | [], _ => true
  | _ :: _, [] => false
  | a :: as, b :: bs => a == b && leadsWith as bs

/-- Python's `needle in hay` substring test, on character lists. -/
def hasSub (needle : List Char) : List Char → Bool
  | [] => leadsWith needle []
  | c :: t => leadsWith needle (c :: t) || hasSub needle t

/-- Python's `needle in hay` substring test, on strings. -/
def strContains (hay needle : String) : Bool := hasSub needle.data hay.data

/-- Token counter behind `str.split()`: `inw` records whether the previous
character was inside a token; a token is counted at its first character. -/
def tokAux : List Char → Bool → Nat
  | [], _ => 0
  | c :: cs, inw =>
    if isPySpace c then tokAux cs false
    else (if inw then 0 else 1) + tokAux cs true

/-- Number of whitespace-separated tokens of a character list. -/
def tokCount (l : List Char) : Nat := tokAux l false

/-- State of the token counter after consuming a character list. -/
def lastInWord : List Char → Bool → Bool
  | [], f => f
  | c :: cs, _ => lastInWord cs (!isPySpace c)

/-- Python `str.split()` with no argument: split on whitespace runs and drop
empty pieces; `acc` holds the reversed current token. -/
def pySplitAux : List Char → List Char → List String
  | [], acc => if acc.isEmpty then [] else [⟨acc.reverse⟩]
  | c :: cs, acc =>
    if isPySpace c then
      if acc.isEmpty then pySplitAux cs [] else ⟨acc.reverse⟩ :: pySplitAux cs []
    else
      pySplitAux cs (c :: acc)

/-- Python `s.split()`. -/
def pySplit (s : String) : List String := pySplitAux s.data []

/-- Python `sep.join(ws)`. -/
def pyJoin (sep : String) : List String → String
  | [] => ""
  | [w] => w
  | w :: ws => w ++ sep ++ pyJoin sep ws

/-- Python `s[:n]` (slicing counts code points, like Lean `Char`s). -/
def pyTake (n : Nat) (s : String) : String := ⟨s.data.take n⟩

/-- Python truthiness of an optional string: `None` and `""` are falsy. -/
def optTruthy : Option String → Bool
  | none => false
  | some s => !(s == "")

/-- Python `x or d` for an optional string `x`. -/
def pyOrDefault (x : Option String) (d : String) : String :=
  match x with
  | none => d
  | some s => if s = "" then d else s

/-! ## The translated source functions (src/main.py) -/

/-- `pick_best_time` (src/main.py lines 35-43): choose the third slot of the
platform's 4-slot table and attach the region label (defaulting to "WIB"). -/
def pick_best_time (region : Option String) (platform : String) : String :=
  let base : List String :=
    if platform = "shorts" then ["07:30", "12:30", "18:30", "21:00"]
    else ["11:00", "16:00", "19:00", "21:00"]
  let tz := pyOrDefault region "WIB"
  base.getD 2 "" ++ " " ++ tz ++ " (±1 jam)"

/-- The keyword loop of `build_hashtags`: for each usable keyword emit the
lowercase-as-given and capitalized "#" variants. -/
def kwTags : List String → List String
  | [] => []
  | k :: ks =>
    let k2 := removeSpaces (pyStrip k)
    (if k2 = "" then [] else ["#" ++ k2, "#" ++ pyCapitalize k2]) ++ kwTags ks

/-- The candidate pool of `build_hashtags`: tags from the first 5 keywords,
then (when niche is truthy) the three niche tags. -/
def hashtagPool (keywords : List String) (niche : Option String) : List String :=
  kwTags (keywords.take 5) ++
    (if optTruthy niche then
      let n := removeSpaces (pyStrip (niche.getD ""))
      ["#" ++ n, "#" ++ n ++ "Indonesia", "#YouTubeTips"]
    else [])

/-- The dedup loop of `build_hashtags`: keep the first case-insensitive
occurrence of each tag, stopping additions once 10 are kept. -/
def uniqLoop : List String → List String → List String → List String
  | [], _seen, uniq => uniq
  | h :: t, seen, uniq =>
    if pyLower h ∉ seen ∧ uniq.length < 10 then
      uniqLoop t (pyLower h :: seen) (uniq ++ [h])
    else
      uniqLoop t seen uniq

/-- The `while len(uniq) < 3` loop of `build_hashtags`: each pass appends one
"#contentcreator", so exactly `3 - length` copies are appended. -/
def padTags (uniq : List String) : List String :=
  uniq ++ List.replicate (3 - uniq.length) "#contentcreator"

/-- `build_hashtags` (src/main.py lines 46-65). -/
def build_hashtags (keywords : List String) (niche : Option String) : List String :=
  (padTags (uniqLoop (hashtagPool keywords niche) [] [])).take 10

/-- The `base` string of `make_hook` before the word-count adjustment. -/
def hookBase (topic : String) (audience : Option String) : String :=
  if optTruthy audience then
    topic ++ " untuk " ++ audience.getD "" ++ ": rahasia yang jarang dibahas"
  else
    topic ++ ": rahasia yang jarang dibahas"

/-- `make_hook` (src/main.py lines 68-78). -/
def make_hook (topic : String) (audience : Option String) : String :=
  let base := hookBase topic audience
  let words := pySplit base
  if words.length < 6 then base ++ " yang wajib kamu tahu sekarang"
  else if words.length > 16 then pyJoin " " (words.take 16)
  else base

/-- `make_title` (src/main.py lines 81-83).  `topic.split()[0]` raises
IndexError when keywords is empty and topic has no words; that partial case
is modelled as `none`. -/
def make_title (topic : String) (keywords : List String) : Option String :=
  let kw : Option String :=
    match keywords with
    | k :: _ => some k
    | [] => (pySplit topic).head?
  kw.map (fun k => pyCapitalize k ++ ": " ++ topic ++ " | Panduan Lengkap")

/-- `choose_angle` (src/main.py lines 86-93): case-insensitive lookup in the
four-template mapping with the generic framework template as default. -/
def choose_angle (format_hint topic : String) : String :=
  let h := pyLower format_hint
  if h = "tutorial" then
    "Tutorial langkah-demi-langkah: " ++ topic ++ " dari nol sampai jadi"
  else if h = "listicle" then
    "Daftar 7 langkah/ide untuk " ++ topic ++ " beserta contoh praktis"
  else if h = "study" then
    "Studi kasus nyata menerapkan " ++ topic ++ " dan hasilnya"
  else if h = "review" then
    "Review tools/strategi untuk " ++ topic ++ " beserta cara pakainya"
  else
    "Kerangka eksekusi praktis untuk " ++ topic ++ " (hook > value > CTA)"

/-- `make_cta` (src/main.py lines 96-100). -/
def make_cta (audience : Option String) : String :=
  if optTruthy audience then
    "Subscribe untuk " ++ audience.getD "" ++
      " tips mingguan, like & komentar topik selanjutnya!"
  else
    "Subscribe untuk tips tiap minggu dan tinggalkan komentar pertanyaanmu!"

/-- The `core` string of `make_description` before the length adjustment. -/
def descCore (topic : String) (keywords : List String) : String :=
  let core := "Bahas " ++ topic ++
    " dengan contoh praktis dan langkah yang bisa langsung dipakai."
  if keywords ≠ [] then
    core ++ " Kata kunci: " ++ pyJoin ", " (keywords.take 3) ++ "."
  else core

/-- `make_description` (src/main.py lines 103-110). -/
def make_description (topic : String) (keywords : List String) : String :=
  let core := descCore topic keywords
  let core2 :=
    if core.length < 80 then
      core ++ " Tonton sampai akhir untuk rangkuman dan template gratis."
    else core
  pyTake 220 core2

/-! ## Evaluator and orchestrator -/

/-- The seven boolean checks computed by `evaluate`, with the source's
dictionary keys as field names (insertion order preserved). -/
structure Checks where
  hook_6_16_kata : Bool
  judul_mengandung_kata_kunci : Bool
  angle_spesifik : Bool
  cta_jelas : Bool
  hashtag_3_10 : Bool
  deskripsi_80_220 : Bool
  ada_rekomendasi_jam : Bool
deriving DecidableEq

/-- `sum(1 for v in checks.values() if v)`. -/
def trueCount (c : Checks) : Nat :=
  (cond c.hook_6_16_kata 1 0) + (cond c.judul_mengandung_kata_kunci 1 0) +
  (cond c.angle_spesifik 1 0) + (cond c.cta_jelas 1 0) +
  (cond c.hashtag_3_10 1 0) + (cond c.deskripsi_80_220 1 0) +
  (cond c.ada_rekomendasi_jam 1 0)

/-- Python `round()` on an exact rational: nearest integer, ties to the even
neighbour.  The source computes `sum/len*100` with binary floats; for the
eight reachable values `t/7*100`, `t = 0..7`, none lies anywhere near a tie,
so exact rational rounding and float rounding agree. -/
def pyRound (q : ℚ) : ℤ :=
  if q - ⌊q⌋ < 1/2 then ⌊q⌋
  else if (1 : ℚ)/2 < q - ⌊q⌋ then ⌊q⌋ + 1
  else if 2 ∣ ⌊q⌋ then ⌊q⌋ else ⌊q⌋ + 1

/-- The fields `evaluate` reads from its input dictionary. -/
structure EvalInput where
  hook : String
  seo_title : String
  keywords : List String
  angle : String
  cta : String
  hashtags : List String
  description : String
  post_time : String

/-- The `checks` dictionary of `evaluate` (src/main.py lines 124-132). -/
def computeChecks (i : EvalInput) : Checks where
  hook_6_16_kata :=
    decide (6 ≤ (pySplit i.hook).length ∧ (pySplit i.hook).length ≤ 16)
  judul_mengandung_kata_kunci :=
    match i.keywords with
    | [] => true
    | ks => ks.any (fun k => strContains (pyLower i.seo_title) (pyLower k))
  angle_spesifik :=
    (["langkah", "studi", "review", "kerangka", "daftar"] : List String).any
      (fun w => strContains (pyLower i.angle) w)
  cta_jelas :=
    (["subscribe", "ikuti", "simpan", "komentar", "like"] : List String).any
      (fun x => strContains (pyLower i.cta) x)
  hashtag_3_10 :=
    decide (3 ≤ i.hashtags.length ∧ i.hashtags.length ≤ 10)
  deskripsi_80_220 :=
    decide (80 ≤ i.description.length ∧ i.description.length ≤ 220)
  ada_rekomendasi_jam := !(i.post_time == "")

structure EvalOutput where
  score : ℤ
  criteria : Checks
deriving DecidableEq

/-- `evaluate` (src/main.py lines 113-134); `len(checks)` is 7. -/
def evaluate (i : EvalInput) : EvalOutput :=
  let checks := computeChecks i
  { score := pyRound ((trueCount checks : ℚ) / 7 * 100), criteria := checks }

/-- The request body of POST /api/analyze (class AnalyzeRequest). -/
structure AnalyzeRequest where
  topic : String
  keywords : List String
  niche : Option String
  audience : Option String
  platform : String
  region : Option String
deriving DecidableEq

/-- The response dictionary assembled by `analyze` (src/main.py
lines 147-165). -/
structure AnalysisRecord where
  topic : String
  keywords : List String
  niche : Option String
  audience : Option String
  format : String
  platform : String
  region : Option String
  seo_title : String
  hook : String
  angle : String
  cta : String
  description : String
  hashtags : List String
  post_time : String
  score : ℤ
  criteria : Checks
deriving DecidableEq

/-- The artifact fields assembled by `analyze` and read back by
`evaluate({**result})`: the generators applied to the request exactly as in
src/main.py lines 139-145. -/
def evalInputOf (req : AnalyzeRequest) (seo_title : String) : EvalInput where
  hook := make_hook req.topic req.audience
  seo_title := seo_title
  keywords := req.keywords
  angle :=
    if req.platform ∈ (["tutorial", "listicle", "study", "review"] : List String)
    then choose_angle req.platform req.topic
    else choose_angle "tutorial" req.topic
  cta := make_cta req.audience
  hashtags := build_hashtags req.keywords req.niche
  description := make_description req.topic req.keywords
  post_time := pick_best_time req.region req.platform

/-- `analyze` (src/main.py lines 137-165), pure part: generators in source
order, record assembly, evaluation, merge.  `make_title` raising
(empty keywords and wordless topic) is `none`; persistence is modelled
separately by `analyzeWithPersist`. -/
def analyze (req : AnalyzeRequest) : Option AnalysisRecord :=
  (make_title req.topic req.keywords).map (fun seo_title =>
    let i := evalInputOf req seo_title
    let scored := evaluate i
    { topic := req.topic, keywords := req.keywords, niche := req.niche
      audience := req.audience, format := req.platform, platform := "youtube"
      region := req.region, seo_title := seo_title, hook := i.hook
      angle := i.angle, cta := i.cta, description := i.description
      hashtags := i.hashtags, post_time := i.post_time
      score := scored.score, criteria := scored.criteria })

/-- `analyze` including the persistence attempt (src/main.py lines 167-171):
`create_document` lives in the external `database` module, so it is modelled
as an arbitrary fallible function; the source wraps the call in
`try: ... except Exception: pass`. -/
def analyzeWithPersist (persist : AnalysisRecord → Except String Unit)
    (req : AnalyzeRequest) : Option AnalysisRecord :=
  match analyze req with
  | none => none
  | some result =>
    match persist result with
    | Except.ok _ => some result
    | Except.error _ => some result

/-! ## Basic string lemmas -/

theorem strData_append (a b : String) : (a ++ b).data = a.data ++ b.data := rfl

theorem strExt (a b : String) (h : a.data = b.data) : a = b := by
  cases a; cases b; cases h; rfl

theorem strLen_append (a b : String) : (a ++ b).length = a.length + b.length :=
  List.length_append a.data b.data

theorem pyLower_data_append (a b : String) :
    (pyLower (a ++ b)).data = (pyLower a).data ++ (pyLower b).data :=
  List.map_append Char.toLower a.data b.data

theorem str_ne_of_head (a b : String) (h : a.data.head? ≠ b.data.head?) :
    a ≠ b :=
  fun e => h (congrArg (fun s => s.data.head?) e)

theorem pyTake_length (n : Nat) (s : String) :
    (pyTake n s).length = min n s.length :=
  List.length_take n s.data

/-! ## Hashtag lemmas -/

theorem padTags_length (l : List String) :
    (padTags l).length = l.length + (3 - l.length) := by
  simp [padTags]

theorem padTags_of_ge (l : List String) (h : 3 ≤ l.length) : padTags l = l := by
  simp [padTags, Nat.sub_eq_zero_of_le h]

/-- Shared helper: the returned hashtag list always has between 3 and 10
entries. -/
theorem build_hashtags_len_helper (keywords : List String) (niche : Option String) :
    3 ≤ (build_hashtags keywords niche).length ∧
      (build_hashtags keywords niche).length ≤ 10 := by
  unfold build_hashtags
  rw [List.length_take, padTags_length]
  omega

/-- The dedup loop keeps case-insensitively distinct tags, given that the
lowercases of the accumulator are recorded in `seen` and pairwise distinct. -/
theorem uniqLoop_pairwise (pool : List String) :
    ∀ seen uniq, (∀ a ∈ uniq, pyLower a ∈ seen) →
      uniq.Pairwise (fun a b => pyLower a ≠ pyLower b) →
      (uniqLoop pool seen uniq).Pairwise (fun a b => pyLower a ≠ pyLower b) := by
  induction pool with
  | nil => intro seen uniq _ hp; simpa [uniqLoop] using hp
  | cons h t ih =>
    intro seen uniq hseen hp
    unfold uniqLoop
    by_cases hc : pyLower h ∉ seen ∧ uniq.length < 10
    · rw [if_pos hc]
      apply ih
      · intro a ha
        rcases List.mem_append.mp ha with ha' | ha'
        · exact List.mem_cons_of_mem _ (hseen a ha')
        · simp at ha'; subst ha'; exact List.mem_cons_self _ _
      · rw [List.pairwise_append]
        refine ⟨hp, List.pairwise_singleton _ _, ?_⟩
        intro a ha b hb
        simp at hb; subst hb
        intro he
        exact hc.1 (he ▸ hseen a ha)
    · rw [if_neg hc]
      exact ih seen uniq hseen hp

/-! ## Token counting lemmas (Python str.split semantics) -/

theorem tokAux_append (a b : List Char) :
    ∀ f, tokAux (a ++ b) f = tokAux a f + tokAux b (lastInWord a f) := by
  induction a with
  | nil => intro f; simp [tokAux, lastInWord]
  | cons c cs ih =>
    intro f
    rw [List.cons_append]
    by_cases h : isPySpace c
    · rw [show tokAux (c :: (cs ++ b)) f = tokAux (cs ++ b) false by
            simp [tokAux, h],
          show tokAux (c :: cs) f = tokAux cs false by simp [tokAux, h],
          show lastInWord (c :: cs) f = lastInWord cs false by
            simp [lastInWord, h],
          ih]
    · rw [show tokAux (c :: (cs ++ b)) f =
            (if f then 0 else 1) + tokAux (cs ++ b) true by simp [tokAux, h],
          show tokAux (c :: cs) f = (if f then 0 else 1) + tokAux cs true by
            simp [tokAux, h],
          show lastInWord (c :: cs) f = lastInWord cs true by
            simp [lastInWord, h],
          ih]
      omega

theorem tokAux_state_compare (l : List Char) :
    tokAux l true ≤ tokAux l false ∧ tokAux l false ≤ tokAux l true + 1 := by
  induction l with
  | nil => simp [tokAux]
  | cons c cs ih =>
    by_cases h : isPySpace c <;> simp [tokAux, h] <;> omega

theorem lastInWord_tok (l : List Char) :
    ∀ f, lastInWord l f = true → (if f then 0 else 1) ≤ tokAux l f := by
  induction l with
  | nil =>
    intro f hf
    cases f
    · simp [lastInWord] at hf
    · simp
  | cons c cs ih =>
    intro f hf
    simp only [lastInWord] at hf
    by_cases h : isPySpace c
    · simp only [tokAux, h, if_true]
      have := ih (!isPySpace c) hf
      rw [h] at this
      simp at this
      cases f <;> simp <;> omega
    · simp only [tokAux, h, if_false]
      cases f <;> simp <;> omega

/-- Prepending any string cannot decrease the whitespace token count. -/
theorem tokCount_append_ge (a b : List Char) : tokCount b ≤ tokCount (a ++ b) := by
  have h := tokAux_append a b false
  have hb := tokAux_state_compare b
  rw [tokCount, tokCount, h]
  cases hls : lastInWord a false
  · omega
  · have h1 := lastInWord_tok a false hls
    simp at h1
    omega

theorem tokAux_space_head (c : Char) (hc : isPySpace c = true) (cs : List Char)
    (f : Bool) : tokAux (c :: cs) f = tokAux cs false := by
  simp [tokAux, hc]

/-- Appending across a space character splits the token count. -/
theorem tokCount_append_space (a : List Char) (c : Char) (hc : isPySpace c = true)
    (b : List Char) : tokCount (a ++ c :: b) = tokCount a + tokCount b := by
  rw [tokCount, tokAux_append, tokAux_space_head c hc, tokCount, tokCount]

theorem pySplitAux_length (s : List Char) :
    ∀ acc, (pySplitAux s acc).length =
      tokAux s (!acc.isEmpty) + (if acc.isEmpty then 0 else 1) := by
  induction s with
  | nil => intro acc; cases acc <;> simp [pySplitAux, tokAux]
  | cons c cs ih =>
    intro acc
    by_cases h : isPySpace c
    · cases acc <;> simp [pySplitAux, h, tokAux, ih]
    · cases acc <;> simp [pySplitAux, h, tokAux, ih] <;> omega

theorem pySplit_length (s : String) : (pySplit s).length = tokCount s.data := by
  rw [pySplit, pySplitAux_length]
  simp [tokCount]

/-- Every word produced by `pySplit` is non-empty and whitespace-free. -/
theorem pySplitAux_words (s : List Char) :
    ∀ acc, (∀ c ∈ acc, isPySpace c = false) →
      ∀ w ∈ pySplitAux s acc, w.data ≠ [] ∧ ∀ c ∈ w.data, isPySpace c = false := by
  induction s with
  | nil =>
    intro acc hacc w hw
    cases acc with
    | nil => simp [pySplitAux] at hw
    | cons a as =>
      simp [pySplitAux] at hw
      subst hw
      constructor
      · simp
      · intro c hc
        have hc' : c ∈ as.reverse ++ [a] := hc
        rcases List.mem_append.mp hc' with h1 | h1
        · exact hacc c (List.mem_cons_of_mem a (List.mem_reverse.mp h1))
        · simp at h1; subst h1; exact hacc c (List.mem_cons_self _ _)
  | cons c cs ih =>
    intro acc hacc w hw
    by_cases h : isPySpace c
    · cases acc with
      | nil =>
        simp [pySplitAux, h] at hw
        exact ih [] (by simp) w hw
      | cons a as =>
        simp only [pySplitAux, h, if_true, List.isEmpty_cons, List.mem_cons] at hw
        simp at hw
        rcases hw with hw | hw
        · subst hw
          refine ⟨by simp, ?_⟩
          intro d hd
          have hd' : d ∈ as.reverse ++ [a] := hd
          rcases List.mem_append.mp hd' with h1 | h1
          · exact hacc d (List.mem_cons_of_mem a (List.mem_reverse.mp h1))
          · simp at h1; subst h1; exact hacc d (List.mem_cons_self _ _)
        · exact ih [] (by simp) w hw
    · simp only [pySplitAux, h, if_false] at hw
      refine ih (c :: acc) ?_ w hw
      intro d hd
      rcases List.mem_cons.mp hd with hd | hd
      · subst hd; simpa using h
      · exact hacc d hd

theorem pySplit_words (s : String) :
    ∀ w ∈ pySplit s, w.data ≠ [] ∧ ∀ c ∈ w.data, isPySpace c = false :=
  pySplitAux_words s.data [] (by simp)

theorem tokAux_true_of_nospace (w : List Char)
    (h : ∀ c ∈ w, isPySpace c = false) : tokAux w true = 0 := by
  induction w with
  | nil => simp [tokAux]
  | cons c cs ih =>
    have hc := h c (List.mem_cons_self c cs)
    simp [tokAux, hc]
    exact ih (fun d hd => h d (List.mem_cons_of_mem c hd))

theorem tokCount_single_word (w : List Char) (hne : w ≠ [])
    (h : ∀ c ∈ w, isPySpace c = false) : tokCount w = 1 := by
  cases w with
  | nil => exact absurd rfl hne
  | cons c cs =>
    have hc := h c (List.mem_cons_self c cs)
    have h0 := tokAux_true_of_nospace cs
      (fun d hd => h d (List.mem_cons_of_mem c hd))
    rw [tokCount]
    simp [tokAux, hc, h0]

/-- Joining non-empty whitespace-free words with single spaces yields exactly
one token per word. -/
theorem pyJoin_space_tok (ws : List String)
    (h : ∀ w ∈ ws, w.data ≠ [] ∧ ∀ c ∈ w.data, isPySpace c = false) :
    tokCount (pyJoin " " ws).data = ws.length := by
  induction ws with
  | nil => simp [pyJoin, tokCount, tokAux]
  | cons w ws ih =>
    cases ws with
    | nil =>
      simp only [pyJoin, List.length_cons, List.length_nil]
      have hw := h w (List.mem_cons_self w [])
      exact tokCount_single_word w.data hw.1 hw.2
    | cons v vs =>
      have hw := h w (List.mem_cons_self w (v :: vs))
      have hrest : ∀ u ∈ v :: vs, u.data ≠ [] ∧ ∀ c ∈ u.data, isPySpace c = false :=
        fun u hu => h u (List.mem_cons_of_mem w hu)
      have hdata : (pyJoin " " (w :: v :: vs)).data =
          w.data ++ ' ' :: (pyJoin " " (v :: vs)).data := by
        show (w ++ " " ++ pyJoin " " (v :: vs)).data = _
        rw [strData_append, strData_append]
        simp
      rw [hdata, tokCount_append_space w.data ' ' rfl]
      rw [tokCount_single_word w.data hw.1 hw.2, ih hrest]
      simp
      omega

/-! ## Hook word-count helpers -/

theorem hookBase_tok_ge (topic : String) (audience : Option String) :
    5 ≤ tokCount (hookBase topic audience).data := by
  have h5 : tokCount (": rahasia yang jarang dibahas" : String).data = 5 := by
    decide
  unfold hookBase
  by_cases h : optTruthy audience
  · rw [if_pos h, strData_append]
    have := tokCount_append_ge
      (topic ++ " untuk " ++ audience.getD "").data
      (": rahasia yang jarang dibahas" : String).data
    omega
  · rw [if_neg h, strData_append]
    have := tokCount_append_ge topic.data
      (": rahasia yang jarang dibahas" : String).data
    omega

theorem tok_append_pad (a : List Char) :
    tokCount (a ++ (" yang wajib kamu tahu sekarang" : String).data) =
      tokCount a + 5 := by
  have hd : (" yang wajib kamu tahu sekarang" : String).data =
      ' ' :: ("yang wajib kamu tahu sekarang" : String).data := by decide
  have h5 : tokCount ("yang wajib kamu tahu sekarang" : String).data = 5 := by
    decide
  rw [hd, tokCount_append_space a ' ' rfl]
  omega

/-- Shared helper: the hook always has between 6 and 16 whitespace-separated
words: the base always has at least 5 (its fixed tail contributes 5 tokens),
the under-6 padding lands on exactly 10, and over-16 bases are cut to 16. -/
theorem make_hook_tok_bounds (topic : String) (audience : Option String) :
    6 ≤ (pySplit (make_hook topic audience)).length ∧
      (pySplit (make_hook topic audience)).length ≤ 16 := by
  have hbase := hookBase_tok_ge topic audience
  have hlen : (pySplit (hookBase topic audience)).length
      = tokCount (hookBase topic audience).data := pySplit_length _
  simp only [make_hook]
  by_cases h1 : (pySplit (hookBase topic audience)).length < 6
  · rw [if_pos h1, pySplit_length, strData_append, tok_append_pad]
    omega
  · rw [if_neg h1]
    by_cases h2 : (pySplit (hookBase topic audience)).length > 16
    · rw [if_pos h2]
      have hgood : ∀ w ∈ (pySplit (hookBase topic audience)).take 16,
          w.data ≠ [] ∧ ∀ c ∈ w.data, isPySpace c = false :=
        fun w hw => pySplit_words (hookBase topic audience) w
          (List.take_subset _ _ hw)
      rw [pySplit_length, pyJoin_space_tok _ hgood, List.length_take]
      omega
    · rw [if_neg h2]
      omega

/-! ## Description length helpers -/

theorem descCore_len (topic : String) (keywords : List String) :
    68 ≤ (descCore topic keywords).length := by
  have hbase : 68 ≤ ("Bahas " ++ topic ++
      " dengan contoh praktis dan langkah yang bisa langsung dipakai." :
        String).length := by
    have h1 : ("Bahas " : String).length = 6 := by decide
    have h2 : (" dengan contoh praktis dan langkah yang bisa langsung dipakai." :
        String).length = 62 := by decide
    simp only [strLen_append]
    omega
  simp only [descCore]
  by_cases h : keywords ≠ []
  · rw [if_pos h]
    simp only [strLen_append] at hbase ⊢
    omega
  · rw [if_neg h]
    exact hbase

/-- Shared helper: the description always has between 80 and 220 characters:
the base is already at least 68 characters, the single filler pushes any
under-80 base into [80, 220], and the final slice caps at 220. -/
theorem make_description_len (topic : String) (keywords : List String) :
    80 ≤ (make_description topic keywords).length ∧
      (make_description topic keywords).length ≤ 220 := by
  have hc := descCore_len topic keywords
  simp only [make_description]
  by_cases h : (descCore topic keywords).length < 80
  · rw [if_pos h, pyTake_length, strLen_append]
    have hf1 : 12 ≤ (" Tonton sampai akhir untuk rangkuman dan template gratis." :
        String).length := by decide
    have hf2 : (" Tonton sampai akhir untuk rangkuman dan template gratis." :
        String).length ≤ 141 := by decide
    omega
  · rw [if_neg h, pyTake_length]
    omega

/-! ## Post-time helpers -/

theorem pick_best_time_head (r : Option String) (p : String) :
    (pick_best_time r p).data.head? = some '1' := by
  simp only [pick_best_time]
  by_cases h : p = "shorts"
  · rw [if_pos h]; rfl
  · rw [if_neg h]; rfl

theorem pick_best_time_nonempty (r : Option String) (p : String) :
    pick_best_time r p ≠ "" := by
  apply str_ne_of_head
  rw [pick_best_time_head]
  decide

/-! ## Substring helpers -/

theorem str_append_assoc (a b c : String) : (a ++ b) ++ c = a ++ (b ++ c) :=
  strExt _ _ (by simp only [strData_append, List.append_assoc])

theorem hasSub_nil (l : List Char) : hasSub [] l = true := by
  cases l <;> simp [hasSub, leadsWith]

theorem leadsWith_append (n : List Char) :
    ∀ h b, leadsWith n h = true → leadsWith n (h ++ b) = true := by
  induction n with
  | nil => intro h b _; rfl
  | cons a as ih =>
    intro h b hl
    cases h with
    | nil => simp [leadsWith] at hl
    | cons c cs =>
      simp only [leadsWith, Bool.and_eq_true, beq_iff_eq] at hl ⊢
      exact ⟨hl.1, ih cs b hl.2⟩

theorem hasSub_append_right (n a b : List Char) (h : hasSub n a = true) :
    hasSub n (a ++ b) = true := by
  induction a with
  | nil =>
    cases n with
    | nil => exact hasSub_nil b
    | cons x xs => simp [hasSub, leadsWith] at h
  | cons c t ih =>
    rw [List.cons_append]
    simp only [hasSub, Bool.or_eq_true] at h ⊢
    rcases h with h | h
    · exact Or.inl (leadsWith_append n (c :: t) b h)
    · exact Or.inr (ih h)

/-- If the needle occurs in the lowered first chunk, it occurs in the lowered
concatenation. -/
theorem strContains_lower_left (litA rest needle : String)
    (h : hasSub needle.data (pyLower litA).data = true) :
    strContains (pyLower (litA ++ rest)) needle = true := by
  unfold strContains
  rw [pyLower_data_append]
  exact hasSub_append_right _ _ _ h

/-! ## Angle template lemmas -/

theorem choose_angle_tutorial (topic : String) :
    choose_angle "tutorial" topic =
      "Tutorial langkah-demi-langkah: " ++ topic ++ " dari nol sampai jadi" := by
  simp only [choose_angle]
  rw [if_pos (by decide : pyLower "tutorial" = "tutorial")]

theorem choose_angle_listicle (topic : String) :
    choose_angle "listicle" topic =
      "Daftar 7 langkah/ide untuk " ++ topic ++ " beserta contoh praktis" := by
  simp only [choose_angle]
  rw [if_neg (by decide : ¬ pyLower "listicle" = "tutorial"),
    if_pos (by decide : pyLower "listicle" = "listicle")]

theorem choose_angle_study (topic : String) :
    choose_angle "study" topic =
      "Studi kasus nyata menerapkan " ++ topic ++ " dan hasilnya" := by
  simp only [choose_angle]
  rw [if_neg (by decide : ¬ pyLower "study" = "tutorial"),
    if_neg (by decide : ¬ pyLower "study" = "listicle"),
    if_pos (by decide : pyLower "study" = "study")]

theorem choose_angle_review (topic : String) :
    choose_angle "review" topic =
      "Review tools/strategi untuk " ++ topic ++ " beserta cara pakainya" := by
  simp only [choose_angle]
  rw [if_neg (by decide : ¬ pyLower "review" = "tutorial"),
    if_neg (by decide : ¬ pyLower "review" = "listicle"),
    if_neg (by decide : ¬ pyLower "review" = "study"),
    if_pos (by decide : pyLower "review" = "review")]

/-- The angle produced by the orchestrator (any request platform) always
contains a specificity trigger word. -/
theorem orchestrated_angle_spesifik (p topic : String) :
    ((["langkah", "studi", "review", "kerangka", "daftar"] : List String).any
      (fun w => strContains (pyLower
        (if p ∈ (["tutorial", "listicle", "study", "review"] : List String)
          then choose_angle p topic
          else choose_angle "tutorial" topic)) w)) = true := by
  rw [List.any_eq_true]
  by_cases hp : p ∈ (["tutorial", "listicle", "study", "review"] : List String)
  · rw [if_pos hp]
    simp only [List.mem_cons, List.not_mem_nil, or_false] at hp
    rcases hp with h | h | h | h <;> subst h
    · refine ⟨"langkah", by simp, ?_⟩
      rw [choose_angle_tutorial, str_append_assoc]
      exact strContains_lower_left _ _ _ (by decide)
    · refine ⟨"daftar", by simp, ?_⟩
      rw [choose_angle_listicle, str_append_assoc]
      exact strContains_lower_left _ _ _ (by decide)
    · refine ⟨"studi", by simp, ?_⟩
      rw [choose_angle_study, str_append_assoc]
      exact strContains_lower_left _ _ _ (by decide)
    · refine ⟨"review", by simp, ?_⟩
      rw [choose_angle_review, str_append_assoc]
      exact strContains_lower_left _ _ _ (by decide)
  · rw [if_neg hp]
    refine ⟨"langkah", by simp, ?_⟩
    rw [choose_angle_tutorial, str_append_assoc]
    exact strContains_lower_left _ _ _ (by decide)

/-- The orchestrator's angle never has head 'K', hence is never the generic
framework template. -/
theorem orchestrated_angle_head (p topic : String) :
    (if p ∈ (["tutorial", "listicle", "study", "review"] : List String)
        then choose_angle p topic
        else choose_angle "tutorial" topic).data.head? ≠ some 'K' := by
  by_cases hp : p ∈ (["tutorial", "listicle", "study", "review"] : List String)
  · rw [if_pos hp]
    simp only [List.mem_cons, List.not_mem_nil, or_false] at hp
    rcases hp with h | h | h | h <;> subst h
    · rw [choose_angle_tutorial]
      rw [show ("Tutorial langkah-demi-langkah: " ++ topic ++
        " dari nol sampai jadi").data.head? = some 'T' from rfl]
      decide
    · rw [choose_angle_listicle]
      rw [show ("Daftar 7 langkah/ide untuk " ++ topic ++
        " beserta contoh praktis").data.head? = some 'D' from rfl]
      decide
    · rw [choose_angle_study]
      rw [show ("Studi kasus nyata menerapkan " ++ topic ++
        " dan hasilnya").data.head? = some 'S' from rfl]
      decide
    · rw [choose_angle_review]
      rw [show ("Review tools/strategi untuk " ++ topic ++
        " beserta cara pakainya").data.head? = some 'R' from rfl]
      decide
  · rw [if_neg hp, choose_angle_tutorial]
    rw [show ("Tutorial langkah-demi-langkah: " ++ topic ++
      " dari nol sampai jadi").data.head? = some 'T' from rfl]
    decide

/-! ## CTA lemma -/

theorem make_cta_subscribe (audience : Option String) :
    strContains (pyLower (make_cta audience)) "subscribe" = true := by
  unfold make_cta
  by_cases h : optTruthy audience
  · rw [if_pos h, str_append_assoc]
    exact strContains_lower_left _ _ _ (by decide)
  · rw [if_neg h]
    decide

/-! ## Score lemmas -/

theorem trueCount_le_seven (c : Checks) : trueCount c ≤ 7 := by
  rcases c with ⟨a, b, c1, d, e, f, g⟩
  unfold trueCount
  cases a <;> cases b <;> cases c1 <;> cases d <;> cases e <;> cases f <;>
    cases g <;> decide

theorem pyRound_score_facts (t : Nat) (h : t ≤ 7) :
    pyRound ((t : ℚ) / 7 * 100) = round ((100 * t : ℚ) / 7) ∧
      0 ≤ pyRound ((t : ℚ) / 7 * 100) ∧ pyRound ((t : ℚ) / 7 * 100) ≤ 100 := by
  interval_cases t <;> refine ⟨?_, ?_, ?_⟩ <;> norm_num [pyRound, round_eq]

theorem score_ge_71 (c : Checks) (h3 : c.angle_spesifik = true)
    (h4 : c.cta_jelas = true) (h5 : c.hashtag_3_10 = true)
    (h6 : c.deskripsi_80_220 = true) (h7 : c.ada_rekomendasi_jam = true) :
    71 ≤ pyRound ((trueCount c : ℚ) / 7 * 100) := by
  rcases c with ⟨a, b, c1, d, e, f, g⟩
  dsimp only at h3 h4 h5 h6 h7
  subst h3; subst h4; subst h5; subst h6; subst h7
  cases a <;> cases b <;> norm_num [trueCount, pyRound]

/-! ## Support definitions for concrete instances -/

def emptyChecks : Checks where
  hook_6_16_kata := false
  judul_mengandung_kata_kunci := false
  angle_spesifik := false
  cta_jelas := false
  hashtag_3_10 := false
  deskripsi_80_220 := false
  ada_rekomendasi_jam := false

def emptyRecord : AnalysisRecord where
  topic := ""
  keywords := []
  niche := none
  audience := none
  format := ""
  platform := ""
  region := none
  seo_title := ""
  hook := ""
  angle := ""
  cta := ""
  description := ""
  hashtags := []
  post_time := ""
  score := 0
  criteria := emptyChecks

theorem option_eq_some_getD {α : Type} (o : Option α) (d : α)
    (h : o.isSome = true) : o = some (o.getD d) := by
  cases o with
  | none => simp at h
  | some x => rfl

def reqShorts : AnalyzeRequest where
  topic := "belajar editing"
  keywords := ["capcut"]
  niche := none
  audience := none
  platform := "shorts"
  region := some "WIB"

/-! ## Claim theorems -/

/-- Claim C1: for every assembled artifact set handed to the checklist
evaluator, the returned score equals round(100 x true-count / 7) over the
seven boolean checks, and therefore always lies in [0, 100]. -/
theorem evaluate_score_matches_round (i : EvalInput) :
    (evaluate i).score = round ((100 * (trueCount (evaluate i).criteria) : ℚ) / 7) ∧
      0 ≤ (evaluate i).score ∧ (evaluate i).score ≤ 100 :=
  pyRound_score_facts (trueCount (computeChecks i)) (trueCount_le_seven _)

/-- Claim C2 counterexample: for the request `reqShorts` (platform "shorts"),
`analyze` answers with platform field "youtube", which differs from the
request's platform — the platform field is not echoed. -/
theorem analyze_platform_not_echoed :
    ((analyze reqShorts).getD emptyRecord).platform = "youtube" ∧
      reqShorts.platform = "shorts" ∧
      ((analyze reqShorts).getD emptyRecord).platform ≠ reqShorts.platform := by
  refine ⟨by decide, rfl, by decide⟩

/-- Claim C2 (amended): the analyze result echoes the request's topic,
keywords, niche, audience and region; the request's platform is echoed into
the `format` field, while the `platform` field is always the constant
"youtube". -/
theorem analyze_echo_fields (req : AnalyzeRequest) (r : AnalysisRecord)
    (h : analyze req = some r) :
    r.topic = req.topic ∧ r.keywords = req.keywords ∧ r.niche = req.niche ∧
      r.audience = req.audience ∧ r.region = req.region ∧
      r.format = req.platform ∧ r.platform = "youtube" := by
  rcases Option.map_eq_some'.mp h with ⟨t, _, hr⟩
  subst hr
  exact ⟨rfl, rfl, rfl, rfl, rfl, rfl, rfl⟩

/-- Claim C2 witness: the amended statement at the concrete request
`reqShorts`. -/
theorem analyze_echo_fields_instance :
    ((analyze reqShorts).getD emptyRecord).topic = reqShorts.topic ∧
      ((analyze reqShorts).getD emptyRecord).keywords = reqShorts.keywords ∧
      ((analyze reqShorts).getD emptyRecord).niche = reqShorts.niche ∧
      ((analyze reqShorts).getD emptyRecord).audience = reqShorts.audience ∧
      ((analyze reqShorts).getD emptyRecord).region = reqShorts.region ∧
      ((analyze reqShorts).getD emptyRecord).format = reqShorts.platform ∧
      ((analyze reqShorts).getD emptyRecord).platform = "youtube" :=
  analyze_echo_fields reqShorts ((analyze reqShorts).getD emptyRecord)
    (option_eq_some_getD _ _ (by decide))

/-- Claim C3: for every keywords list and optional niche, the hashtag
builder returns between 3 and 10 entries. -/
theorem build_hashtags_length_bounds (keywords : List String)
    (niche : Option String) :
    3 ≤ (build_hashtags keywords niche).length ∧
      (build_hashtags keywords niche).length ≤ 10 :=
  build_hashtags_len_helper keywords niche

/-- Claim C4 counterexample: the non-empty keyword list ["a"] (length ≤ 5)
with absent niche yields ["#a", "#contentcreator", "#contentcreator"] —
the padding repeats "#contentcreator", so the entries are not unique
case-insensitively. -/
theorem build_hashtags_unique_cex :
    (["a"] : List String) ≠ [] ∧ (["a"] : List String).length ≤ 5 ∧
      ¬ ((build_hashtags ["a"] none).Pairwise
          (fun a b => pyLower a ≠ pyLower b)) := by
  refine ⟨by decide, by decide, ?_⟩
  intro hp
  rw [show build_hashtags ["a"] none =
      ["#a", "#contentcreator", "#contentcreator"] from rfl] at hp
  rcases List.pairwise_cons.mp hp with ⟨_, hp2⟩
  rcases List.pairwise_cons.mp hp2 with ⟨h12, _⟩
  exact h12 "#contentcreator" (List.mem_cons_self _ _) rfl

/-- Claim C4 (amended): for every non-empty keywords list of length at most 5
with absent niche, the hashtag count is in [3, 10]; and whenever the
deduplicated keyword pool already has at least 3 tags (so the padding loop
does not run), all returned entries are unique case-insensitively.  Padding
may repeat the literal "#contentcreator". -/
theorem build_hashtags_unique_amended (keywords : List String)
    (h1 : keywords ≠ []) (h2 : keywords.length ≤ 5) :
    (3 ≤ (build_hashtags keywords none).length ∧
      (build_hashtags keywords none).length ≤ 10) ∧
    (3 ≤ (uniqLoop (hashtagPool keywords none) [] []).length →
      (build_hashtags keywords none).Pairwise
        (fun a b => pyLower a ≠ pyLower b)) := by
  refine ⟨build_hashtags_len_helper keywords none, ?_⟩
  intro hu
  unfold build_hashtags
  rw [padTags_of_ge _ hu]
  have hp := uniqLoop_pairwise (hashtagPool keywords none) [] []
    (by simp) List.Pairwise.nil
  exact hp.sublist (List.take_sublist _ _)

/-- Claim C4 witness: the amended statement at the concrete keyword list
["ayam", "bebek", "cumi"]. -/
theorem build_hashtags_unique_instance :
    (3 ≤ (build_hashtags ["ayam", "bebek", "cumi"] none).length ∧
      (build_hashtags ["ayam", "bebek", "cumi"] none).length ≤ 10) ∧
    (3 ≤ (uniqLoop (hashtagPool ["ayam", "bebek", "cumi"] none) [] []).length →
      (build_hashtags ["ayam", "bebek", "cumi"] none).Pairwise
        (fun a b => pyLower a ≠ pyLower b)) :=
  build_hashtags_unique_amended ["ayam", "bebek", "cumi"] (by decide) (by decide)

/-- Claim C5 counterexample: no input at all gives a hook of fewer than 6
words — the negation of the claimed existence. -/
theorem make_hook_under_six_impossible :
    ¬ ∃ topic audience, (pySplit (make_hook topic audience)).length < 6 := by
  rintro ⟨t, a, hlt⟩
  have := (make_hook_tok_bounds t a).1
  omega

/-- Claim C5 (amended): for every topic and optional audience, the hook's
whitespace-delimited word count lies in [6, 16]: the base always has at
least 5 words, so the one-shot padding always reaches at least 6 (in fact
exactly 10), and longer bases are truncated to 16 words. -/
theorem make_hook_word_bounds (topic : String) (audience : Option String) :
    6 ≤ (pySplit (make_hook topic audience)).length ∧
      (pySplit (make_hook topic audience)).length ≤ 16 :=
  make_hook_tok_bounds topic audience

/-- Claim C6: whenever the request's platform is none of the four exact
strings, the analyze angle is the tutorial template for the topic; and the
orchestrator never produces the generic framework template. -/
theorem analyze_angle_tutorial_fallback (req : AnalyzeRequest)
    (r : AnalysisRecord) (h : analyze req = some r) :
    (req.platform ∉ (["tutorial", "listicle", "study", "review"] : List String) →
      r.angle = "Tutorial langkah-demi-langkah: " ++ req.topic ++
        " dari nol sampai jadi") ∧
    r.angle ≠ "Kerangka eksekusi praktis untuk " ++ req.topic ++
      " (hook > value > CTA)" := by
  rcases Option.map_eq_some'.mp h with ⟨t, _, hr⟩
  subst hr
  constructor
  · intro hnp
    show (if req.platform ∈ (["tutorial", "listicle", "study", "review"] : List String)
        then choose_angle req.platform req.topic
        else choose_angle "tutorial" req.topic) = _
    rw [if_neg hnp, choose_angle_tutorial]
  · show (if req.platform ∈ (["tutorial", "listicle", "study", "review"] : List String)
        then choose_angle req.platform req.topic
        else choose_angle "tutorial" req.topic) ≠ _
    intro he
    exact orchestrated_angle_head req.platform req.topic (by rw [he]; rfl)

/-- Claim C6 witness: the statement at the concrete request `reqShorts`,
whose platform "shorts" is not a recognized format hint. -/
theorem analyze_angle_tutorial_instance :
    (reqShorts.platform ∉ (["tutorial", "listicle", "study", "review"] : List String) →
      ((analyze reqShorts).getD emptyRecord).angle =
        "Tutorial langkah-demi-langkah: " ++ reqShorts.topic ++
          " dari nol sampai jadi") ∧
    ((analyze reqShorts).getD emptyRecord).angle ≠
      "Kerangka eksekusi praktis untuk " ++ reqShorts.topic ++
        " (hook > value > CTA)" :=
  analyze_angle_tutorial_fallback reqShorts
    ((analyze reqShorts).getD emptyRecord)
    (option_eq_some_getD _ _ (by decide))

theorem str_chunk_1830 (tz : String) :
    "18:30" ++ " " ++ tz ++ " (±1 jam)" = "18:30 " ++ tz ++ " (±1 jam)" := by
  apply strExt
  simp only [strData_append, List.append_assoc]
  rfl

theorem str_chunk_1900 (tz : String) :
    "19:00" ++ " " ++ tz ++ " (±1 jam)" = "19:00 " ++ tz ++ " (±1 jam)" := by
  apply strExt
  simp only [strData_append, List.append_assoc]
  rfl

theorem pick_best_time_shorts_eq (region : Option String) :
    pick_best_time region "shorts" =
      "18:30" ++ " " ++ pyOrDefault region "WIB" ++ " (±1 jam)" := rfl

theorem pick_best_time_other_eq (region : Option String) (p : String)
    (h : ¬ p = "shorts") :
    pick_best_time region p =
      "19:00" ++ " " ++ pyOrDefault region "WIB" ++ " (±1 jam)" := by
  simp only [pick_best_time]
  rw [if_neg h]
  rfl

theorem pyOrDefault_eq_match (region : Option String) :
    pyOrDefault region "WIB" = (match region with
      | some s => if s = "" then "WIB" else s
      | none => "WIB") := by
  cases region <;> rfl

/-- Claim C7: for every optional region, the "shorts" schedule always yields
the third slot "18:30 tz (±1 jam)" and every other platform always yields
the third slot "19:00 tz (±1 jam)", where tz is the region when present and
non-empty, and "WIB" otherwise. -/
theorem pick_best_time_third_slot (region : Option String) (platform : String)
    (h : platform ≠ "shorts") :
    pick_best_time region "shorts" =
      "18:30 " ++ (match region with
        | some s => if s = "" then "WIB" else s
        | none => "WIB") ++ " (±1 jam)" ∧
    pick_best_time region platform =
      "19:00 " ++ (match region with
        | some s => if s = "" then "WIB" else s
        | none => "WIB") ++ " (±1 jam)" := by
  constructor
  · rw [pick_best_time_shorts_eq, ← pyOrDefault_eq_match]
    exact str_chunk_1830 _
  · rw [pick_best_time_other_eq region platform h, ← pyOrDefault_eq_match]
    exact str_chunk_1900 _

/-- Claim C7 witness: the statement at region "WITA" and platform
"youtube". -/
theorem pick_best_time_third_slot_instance :
    pick_best_time (some "WITA") "shorts" =
      "18:30 " ++ (match some "WITA" with
        | some s => if s = "" then "WIB" else s
        | none => "WIB") ++ " (±1 jam)" ∧
    pick_best_time (some "WITA") "youtube" =
      "19:00 " ++ (match some "WITA" with
        | some s => if s = "" then "WIB" else s
        | none => "WIB") ++ " (±1 jam)" :=
  pick_best_time_third_slot (some "WITA") "youtube" (by decide)

/-- Claim C8: empty keywords with absent niche give exactly three copies of
"#contentcreator". -/
theorem build_hashtags_empty_padded :
    build_hashtags [] none =
      ["#contentcreator", "#contentcreator", "#contentcreator"] := rfl

/-- Claim C9: the analyze response is independent of the persistence
outcome: any failure of `create_document` is swallowed, and the returned
record is exactly the one returned when persistence succeeds. -/
theorem analyze_persistence_swallowed
    (persist : AnalysisRecord → Except String Unit) (req : AnalyzeRequest) :
    analyzeWithPersist persist req = analyze req := by
  unfold analyzeWithPersist
  cases analyze req with
  | none => rfl
  | some r =>
    show (match persist r with
      | Except.ok _ => some r
      | Except.error _ => some r) = some r
    cases persist r <;> rfl

theorem evaluate_score_min (i : EvalInput)
    (h3 : (computeChecks i).angle_spesifik = true)
    (h4 : (computeChecks i).cta_jelas = true)
    (h5 : (computeChecks i).hashtag_3_10 = true)
    (h6 : (computeChecks i).deskripsi_80_220 = true)
    (h7 : (computeChecks i).ada_rekomendasi_jam = true) :
    71 ≤ (evaluate i).score :=
  score_ge_71 (computeChecks i) h3 h4 h5 h6 h7

def reqListicle : AnalyzeRequest where
  topic := "belajar gitar"
  keywords := ["chord"]
  niche := some "musik"
  audience := some "pemula"
  platform := "listicle"
  region := some "WITA"

/-- Claim C10: every analyze result has the five checks angle_spesifik,
cta_jelas, hashtag_3_10, deskripsi_80_220 and ada_rekomendasi_jam true, so
its score is at least 71. -/
theorem analyze_criteria_floor (req : AnalyzeRequest) (r : AnalysisRecord)
    (h : analyze req = some r) :
    r.criteria.angle_spesifik = true ∧ r.criteria.cta_jelas = true ∧
      r.criteria.hashtag_3_10 = true ∧ r.criteria.deskripsi_80_220 = true ∧
      r.criteria.ada_rekomendasi_jam = true ∧ 71 ≤ r.score := by
  rcases Option.map_eq_some'.mp h with ⟨t, _, hr⟩
  subst hr
  have h3 : (computeChecks (evalInputOf req t)).angle_spesifik = true :=
    orchestrated_angle_spesifik req.platform req.topic
  have h4 : (computeChecks (evalInputOf req t)).cta_jelas = true := by
    show (["subscribe", "ikuti", "simpan", "komentar", "like"] : List String).any
      (fun x => strContains (pyLower (make_cta req.audience)) x) = true
    rw [List.any_eq_true]
    exact ⟨"subscribe", by simp, make_cta_subscribe req.audience⟩
  have h5 : (computeChecks (evalInputOf req t)).hashtag_3_10 = true :=
    decide_eq_true (build_hashtags_len_helper req.keywords req.niche)
  have h6 : (computeChecks (evalInputOf req t)).deskripsi_80_220 = true :=
    decide_eq_true (make_description_len req.topic req.keywords)
  have h7 : (computeChecks (evalInputOf req t)).ada_rekomendasi_jam = true := by
    show (!(pick_best_time req.region req.platform == "")) = true
    rw [Bool.not_eq_true']
    exact beq_eq_false_iff_ne.mpr (pick_best_time_nonempty _ _)
  exact ⟨h3, h4, h5, h6, h7, evaluate_score_min (evalInputOf req t) h3 h4 h5 h6 h7⟩

/-- Claim C10 witness: the statement at the concrete request
`reqListicle`. -/
theorem analyze_criteria_floor_instance :
    ((analyze reqListicle).getD emptyRecord).criteria.angle_spesifik = true ∧
      ((analyze reqListicle).getD emptyRecord).criteria.cta_jelas = true ∧
      ((analyze reqListicle).getD emptyRecord).criteria.hashtag_3_10 = true ∧
      ((analyze reqListicle).getD emptyRecord).criteria.deskripsi_80_220 = true ∧
      ((analyze reqListicle).getD emptyRecord).criteria.ada_rekomendasi_jam = true ∧
      71 ≤ ((analyze reqListicle).getD emptyRecord).score :=
  analyze_criteria_floor reqListicle ((analyze reqListicle).getD emptyRecord)
    (option_eq_some_getD _ _ (by decide))
